import Mathlib

/-!
Verification of the `/predict-stats` relay in `src/server.js`.

JavaScript runtime values are modelled by `JSVal` (undefined, null, NaN,
booleans, numbers as exact rationals, strings).  JS floating point arithmetic
is idealized as exact rational arithmetic; the operations the server uses
(`+`, `/ 6`, `Math.round`, `<`, `>`, `||`, truthiness, `String(...)`,
`.toLowerCase()`, `.includes(...)`) are embedded below.  Number-to-string and
string-to-number conversions are embedded on the decimal fragment actually
reachable from form input (no exponent, hexadecimal or Infinity syntax).
-/

inductive JSVal : Type where
  | undef : JSVal
  | null : JSVal
  | nan : JSVal
  | bool : Bool → JSVal
  | num : ℚ → JSVal
  | str : String → JSVal
deriving DecidableEq

/-- JS truthiness: `undefined`, `null`, `NaN`, `false`, `0` and `""` are falsy. -/
def jsTruthy : JSVal → Bool
  | .undef => false
  | .null => false
  | .nan => false
  | .bool b => b
  | .num q => decide (q ≠ 0)
  | .str s => decide (s ≠ "")

/-- JS `a || b`: the left operand when truthy, otherwise the right operand. -/
def jsOr (a b : JSVal) : JSVal := if jsTruthy a then a else b

/-- Value of a list of decimal digit characters. -/
def digitsVal (cs : List Char) : Nat :=
  cs.foldl (fun n c => 10 * n + (c.toNat - 48)) 0

/-- Fractional part denoted by digit characters after a decimal point. -/
def fracVal (cs : List Char) : ℚ :=
  (digitsVal cs : ℚ) / ((10 : ℚ) ^ cs.length)

/-- Unsigned decimal numeral: digits, optionally a point and more digits. -/
def parseUnsigned (cs : List Char) : Option ℚ :=
  let intPart := cs.takeWhile Char.isDigit
  let rest := cs.dropWhile Char.isDigit
  match rest with
  | [] => if intPart.isEmpty then none else some (digitsVal intPart : ℚ)
  | '.' :: frac =>
      if frac.all Char.isDigit && !(intPart.isEmpty && frac.isEmpty) then
        some ((digitsVal intPart : ℚ) + fracVal frac)
      else none
  | _ => none

/-- JS `Number(string)` on the decimal fragment: trimmed empty string is 0,
optional sign, decimal digits with optional fraction; anything else is NaN
(`none`). -/
def parseNumber (s : String) : Option ℚ :=
  let cs := ((s.data.dropWhile Char.isWhitespace).reverse.dropWhile
      Char.isWhitespace).reverse
  match cs with
  | [] => some 0
  | '-' :: rest => (parseUnsigned rest).map (fun q => -q)
  | '+' :: rest => parseUnsigned rest
  | _ => parseUnsigned cs

/-- JS `ToNumber`: `none` plays the role of NaN. -/
def jsToNumber : JSVal → Option ℚ
  | .undef => none
  | .null => some 0
  | .nan => none
  | .bool b => some (if b then 1 else 0)
  | .num q => some q
  | .str s => parseNumber s

/-- Decimal digits of the fractional part `q` (with `0 ≤ q < 1`), produced by
repeated multiplication by 10; `fuel` bounds the length, enough for every
finite decimal the embedded fragment produces. -/
def fracDigits : Nat → ℚ → String
  | 0, _ => ""
  | Nat.succ fuel, q =>
      if q = 0 then ""
      else
        let q10 := q * 10
        let d : ℤ := ⌊q10⌋
        toString d.toNat ++ fracDigits fuel (q10 - (d : ℚ))

/-- Decimal rendering of a nonnegative rational. -/
def ratToStringNonneg (q : ℚ) : String :=
  let n : ℤ := ⌊q⌋
  let fs := fracDigits 30 (q - (n : ℚ))
  if fs = "" then toString n else toString n ++ "." ++ fs

/-- JS number-to-string conversion, idealized as exact decimal rendering. -/
def ratToString (q : ℚ) : String :=
  if q < 0 then "-" ++ ratToStringNonneg (-q) else ratToStringNonneg q

/-- JS `String(v)` conversion. -/
def jsToString : JSVal → String
  | .undef => "undefined"
  | .null => "null"
  | .nan => "NaN"
  | .bool b => if b then "true" else "false"
  | .num q => ratToString q
  | .str s => s

/-- JS `+`: string concatenation when either operand is a string, otherwise
numeric addition (NaN-propagating). -/
def jsAdd (a b : JSVal) : JSVal :=
  match a, b with
  | .str s, w => .str (s ++ jsToString w)
  | v, .str s => .str (jsToString v ++ s)
  | v, w =>
      match jsToNumber v, jsToNumber w with
      | some x, some y => .num (x + y)
      | _, _ => .nan

/-- JS `/` on the fragment used by the server (the only divisor in the source
is the nonzero literal 6; division by zero is outside the modelled fragment). -/
def jsDiv (a b : JSVal) : JSVal :=
  match jsToNumber a, jsToNumber b with
  | some x, some y => if y = 0 then .nan else .num (x / y)
  | _, _ => .nan

/-- `Math.round` on a rational: floor of `q + 1/2` (JS rounds half up). -/
def jsRoundQ (q : ℚ) : ℚ := (((q + 1/2).floor : ℤ) : ℚ)

/-- JS `Math.round(v)`. -/
def jsRound (v : JSVal) : JSVal :=
  match jsToNumber v with
  | some q => .num (jsRoundQ q)
  | none => .nan

/-- JS `a < b`: lexicographic when both are strings, else numeric comparison,
false when either side is NaN. -/
def jsLt (a b : JSVal) : Bool :=
  match a, b with
  | .str s, .str t => decide (s < t)
  | v, w =>
      match jsToNumber v, jsToNumber w with
      | some x, some y => decide (x < y)
      | _, _ => false

/-- JS `a > b`. -/
def jsGt (a b : JSVal) : Bool := jsLt b a

/-- Does `hay` start with `needle`? -/
def headMatches : List Char → List Char → Bool
  | [], _ => true
  | _ :: _, [] => false
  | a :: as, b :: bs => a == b && headMatches as bs

/-- JS `hay.includes(needle)` on character lists. -/
def containsSeq (needle : List Char) : List Char → Bool
  | [] => headMatches needle []
  | c :: t => headMatches needle (c :: t) || containsSeq needle t

/-- The request body (`playerData` in the source): every field the server
reads, each an arbitrary JS value, `undef` when the client omitted it. -/
structure RawInput where
  age : JSVal := .undef
  weight_kg : JSVal := .undef
  weight : JSVal := .undef
  potential : JSVal := .undef
  skill_moves : JSVal := .undef
  dribbling : JSVal := .undef
  work_rate : JSVal := .undef
  body_type : JSVal := .undef
  pace : JSVal := .undef
  shooting : JSVal := .undef
  passing : JSVal := .undef
  defending : JSVal := .undef
  physic : JSVal := .undef
  player_traits : JSVal := .undef
deriving DecidableEq

/-- The normalized feature record (the `mapped` object literal in the source). -/
structure Mapped where
  age : JSVal
  weight_kg : JSVal
  potential : JSVal
  skill_moves : JSVal
  work_rate : JSVal
  body_type : JSVal
  pace : JSVal
  shooting : JSVal
  passing : JSVal
  defending : JSVal
  physic : JSVal
  player_traits : JSVal
deriving DecidableEq

/-- The field names of the `mapped` object literal, in source order. -/
def mappedFieldNames : List String :=
  ["age", "weight_kg", "potential", "skill_moves", "work_rate", "body_type",
   "pace", "shooting", "passing", "defending", "physic", "player_traits"]

/-- The normalization step of `/predict-stats` (construction of `mapped`). -/
def normalizeInput (p : RawInput) : Mapped where
  age := if p.age ≠ .undef then p.age else .num 0
  weight_kg := if p.weight_kg ≠ .undef then p.weight_kg else jsOr p.weight (.num 0)
  potential :=
    if p.potential ≠ .undef then p.potential
    else
      jsOr
        (jsRound (jsDiv
          (jsAdd (jsAdd (jsAdd (jsAdd (jsAdd
            (jsOr p.pace (.num 0)) (jsOr p.shooting (.num 0)))
            (jsOr p.passing (.num 0))) (jsOr p.dribbling (.num 0)))
            (jsOr p.defending (.num 0))) (jsOr p.physic (.num 0)))
          (.num 6)))
        (.num 0)
  skill_moves :=
    if p.skill_moves ≠ .undef then p.skill_moves
    else if p.dribbling ≠ .undef then p.dribbling else .num 0
  work_rate := jsOr p.work_rate (.str "Unknown_Category")
  body_type := jsOr p.body_type (.str "Unknown_Category")
  pace := if p.pace ≠ .undef then p.pace else .num 0
  shooting := if p.shooting ≠ .undef then p.shooting else .num 0
  passing := if p.passing ≠ .undef then p.passing else .num 0
  defending := if p.defending ≠ .undef then p.defending else .num 0
  physic := if p.physic ≠ .undef then p.physic else .num 0
  player_traits := jsOr p.player_traits (.str "")

/-- Fallback reason pushed when no individual check fires. -/
def fallbackMsg : String :=
  "No single weak area detected; overall stats may be below model threshold"

/-- Generic failure message of the outer catch handler. -/
def genericMsg : String := "Sorry, I'm having trouble thinking right now."

/-- `reasons.push(s)` guarded by a boolean condition. -/
def appendIf (b : Bool) (s : String) (r : List String) : List String :=
  if b then r ++ [s] else r

/-- Case-insensitive test for the substring "fat". -/
def hasFat (s : String) : Bool :=
  containsSeq ['f', 'a', 't'] (s.data.map Char.toLower)

/-- Condition of check 1: `mapped.pace !== undefined && mapped.pace < 70`. -/
def cond1 (m : Mapped) : Bool := decide (m.pace ≠ .undef) && jsLt m.pace (.num 70)

/-- Condition of check 2: `mapped.shooting !== undefined && mapped.shooting < 65`. -/
def cond2 (m : Mapped) : Bool := decide (m.shooting ≠ .undef) && jsLt m.shooting (.num 65)

/-- Condition of check 3: `mapped.passing !== undefined && mapped.passing < 65`. -/
def cond3 (m : Mapped) : Bool := decide (m.passing ≠ .undef) && jsLt m.passing (.num 65)

/-- Condition of check 4: `mapped.defending !== undefined && mapped.defending < 60`. -/
def cond4 (m : Mapped) : Bool := decide (m.defending ≠ .undef) && jsLt m.defending (.num 60)

/-- Condition of check 5: `mapped.physic !== undefined && mapped.physic < 65`. -/
def cond5 (m : Mapped) : Bool := decide (m.physic ≠ .undef) && jsLt m.physic (.num 65)

/-- Condition of check 6: `mapped.potential !== undefined && mapped.potential < 50`. -/
def cond6 (m : Mapped) : Bool := decide (m.potential ≠ .undef) && jsLt m.potential (.num 50)

/-- Condition of check 7: `mapped.skill_moves !== undefined && mapped.skill_moves < 3`. -/
def cond7 (m : Mapped) : Bool := decide (m.skill_moves ≠ .undef) && jsLt m.skill_moves (.num 3)

/-- Condition of check 8: `mapped.age !== undefined && mapped.age > 34`. -/
def cond8 (m : Mapped) : Bool := decide (m.age ≠ .undef) && jsGt m.age (.num 34)

/-- Condition of check 9:
`mapped.body_type && String(mapped.body_type).toLowerCase().includes('fat')`. -/
def cond9 (m : Mapped) : Bool := jsTruthy m.body_type && hasFat (jsToString m.body_type)

/-- The nine sequential `reasons.push` checks of the source, in source order
(check 1 runs first, so its string lands first in the list). -/
def rawReasons (m : Mapped) : List String :=
  appendIf (cond9 m) "Body type may affect performance"
    (appendIf (cond8 m) "Age may be high"
      (appendIf (cond7 m) "Low skill moves"
        (appendIf (cond6 m) "Low potential"
          (appendIf (cond5 m) "Low physicality"
            (appendIf (cond4 m) "Low defending"
              (appendIf (cond3 m) "Low passing"
                (appendIf (cond2 m) "Low shooting"
                  (appendIf (cond1 m) "Low pace" []))))))))

/-- The nine checks followed by the fallback push when nothing fired. -/
def heuristicReasons (m : Mapped) : List String :=
  let r := rawReasons m
  if r.length = 0 then r ++ [fallbackMsg] else r

/-- The whole reasons block: runs only under `prediction === 0`. -/
def reasonsFor (prediction : JSVal) (m : Mapped) : List String :=
  if prediction = .num 0 then heuristicReasons m else []

/-- The fields the relay reads from the external service's JSON response
(`pythonData` in the source); `undef` stands for an absent field. -/
structure PyResp where
  prediction : JSVal := .undef
  message : JSVal := .undef
  overall_calculated : JSVal := .undef
  response : JSVal := .undef
  error : JSVal := .undef
deriving DecidableEq

/-- `pythonData.prediction !== undefined ? pythonData.prediction
: (pythonData.response || null)`. -/
def extractPrediction (pd : PyResp) : JSVal :=
  if pd.prediction ≠ .undef then pd.prediction else jsOr pd.response .null

/-- `pythonData.message || null`. -/
def extractMessage (pd : PyResp) : JSVal := jsOr pd.message .null

/-- `pythonData.overall_calculated !== undefined
? pythonData.overall_calculated : null`. -/
def extractOverall (pd : PyResp) : JSVal :=
  if pd.overall_calculated ≠ .undef then pd.overall_calculated else .null

/-- Outcome of the outbound axios call: success with a parsed body, an HTTP
error carrying a response body (`error.response`), no response at all
(`error.request`, unreachable service), or a request-construction failure. -/
inductive ServiceOutcome : Type where
  | ok : PyResp → ServiceOutcome
  | httpError : Nat → PyResp → ServiceOutcome
  | noResponse : ServiceOutcome
  | setupError : String → ServiceOutcome
deriving DecidableEq

/-- What the endpoint sends back: `res.json({...})` on the success path, or
`res.status(500).json({ error })` from the outer catch. -/
inductive RelayResponse : Type where
  | ok : JSVal → JSVal → List String → JSVal → RelayResponse
  | err : Nat → JSVal → RelayResponse
deriving DecidableEq

/-- HTTP status of a relay response. -/
def statusOf : RelayResponse → Nat
  | .ok _ _ _ _ => 200
  | .err s _ => s

/-- The `/predict-stats` handler.  `fault` models a runtime fault raised
inside the inner `try` block around the reasons computation (the embedded
evaluation itself is total, so `none` is its actual behaviour); the inner
`catch` resets `reasons` to the empty list.  On `httpError` the outer catch
uses `error.response.data.error || errorMsg`; on `noResponse` and
`setupError` the generic message survives unchanged. -/
def relay (raw : RawInput) (outcome : ServiceOutcome)
    (fault : Option String) : RelayResponse :=
  let m := normalizeInput raw
  match outcome with
  | .ok pd =>
      let prediction := extractPrediction pd
      let reasons :=
        match fault with
        | none => reasonsFor prediction m
        | some _ => []
      .ok prediction (extractMessage pd) reasons (extractOverall pd)
  | .httpError _ pd => .err 500 (jsOr pd.error (.str genericMsg))
  | .noResponse => .err 500 (.str genericMsg)
  | .setupError _ => .err 500 (.str genericMsg)

/-- The spec's NormalizedFeatures data model: a typed record, numeric fields
as rationals, categorical fields as strings. -/
structure Features where
  age : ℚ := 0
  weight_kg : ℚ := 0
  potential : ℚ := 0
  skill_moves : ℚ := 0
  work_rate : String := "Unknown_Category"
  body_type : String := "Unknown_Category"
  pace : ℚ := 0
  shooting : ℚ := 0
  passing : ℚ := 0
  defending : ℚ := 0
  physic : ℚ := 0
  player_traits : String := ""
deriving DecidableEq

/-- Injection of a typed NormalizedFeatures record into the JS value level. -/
def toMapped (f : Features) : Mapped where
  age := .num f.age
  weight_kg := .num f.weight_kg
  potential := .num f.potential
  skill_moves := .num f.skill_moves
  work_rate := .str f.work_rate
  body_type := .str f.body_type
  pace := .num f.pace
  shooting := .num f.shooting
  passing := .num f.passing
  defending := .num f.defending
  physic := .num f.physic
  player_traits := .str f.player_traits

/-- Spec-side reason list, following the spec's words: the nine threshold
checks evaluated in the fixed order of section 4.2, each appending its
catalog string when it holds. -/
def specReasonChecks (f : Features) : List String :=
  (if f.pace < 70 then ["Low pace"] else []) ++
  (if f.shooting < 65 then ["Low shooting"] else []) ++
  (if f.passing < 65 then ["Low passing"] else []) ++
  (if f.defending < 60 then ["Low defending"] else []) ++
  (if f.physic < 65 then ["Low physicality"] else []) ++
  (if f.potential < 50 then ["Low potential"] else []) ++
  (if f.skill_moves < 3 then ["Low skill moves"] else []) ++
  (if f.age > 34 then ["Age may be high"] else []) ++
  (if hasFat f.body_type then ["Body type may affect performance"] else [])

theorem jsTruthy_str_empty : jsTruthy (.str "") = false := by decide

theorem jsTruthy_num_zero : jsTruthy (.num 0) = false := by decide

theorem jsAdd_num (a b : ℚ) : jsAdd (.num a) (.num b) = .num (a + b) := rfl

theorem jsRound_num (a : ℚ) : jsRound (.num a) = .num (jsRoundQ a) := rfl

theorem jsDiv_num (a b : ℚ) (hb : b ≠ 0) : jsDiv (.num a) (.num b) = .num (a / b) := by
  simp [jsDiv, jsToNumber, hb]

theorem jsOr_num_zero (z : ℚ) : jsOr (.num z) (.num 0) = .num z := by
  by_cases h : z = 0 <;> simp [jsOr, jsTruthy, h]

/-- A raw field that is a number or absent (the domain on which the spec's
arithmetic reading of the potential derivation makes sense). -/
def NumOrUndef (v : JSVal) : Prop := v = .undef ∨ ∃ q : ℚ, v = .num q

/-- Numeric contribution of a raw field to the potential average: its value
for a number, 0 when absent. -/
def contrib : JSVal → ℚ
  | .num q => q
  | _ => 0

theorem contrib_or (v : JSVal) (h : NumOrUndef v) :
    jsOr v (.num 0) = .num (contrib v) := by
  rcases h with h | ⟨q, h⟩
  · subst h; simp [jsOr, jsTruthy, contrib]
  · subst h; by_cases hq : q = 0 <;> simp [jsOr, jsTruthy, contrib, hq]

/-- C2: for every RawInput whose `potential` field is absent and whose six
contributor fields are numbers or absent, normalization sets `potential` to
`Math.round` of the mean of the six contributors, an absent contributor
counting as 0 (a rounded result of 0 stays 0 through the `|| 0` guard). -/
theorem c2_potential_mean (p : RawInput) (hpot : p.potential = JSVal.undef)
    (h1 : NumOrUndef p.pace) (h2 : NumOrUndef p.shooting) (h3 : NumOrUndef p.passing)
    (h4 : NumOrUndef p.dribbling) (h5 : NumOrUndef p.defending)
    (h6 : NumOrUndef p.physic) :
    (normalizeInput p).potential =
      .num (jsRoundQ ((contrib p.pace + contrib p.shooting + contrib p.passing +
        contrib p.dribbling + contrib p.defending + contrib p.physic) / 6)) := by
  show (if p.potential ≠ .undef then p.potential
    else
      jsOr
        (jsRound (jsDiv
          (jsAdd (jsAdd (jsAdd (jsAdd (jsAdd
            (jsOr p.pace (.num 0)) (jsOr p.shooting (.num 0)))
            (jsOr p.passing (.num 0))) (jsOr p.dribbling (.num 0)))
            (jsOr p.defending (.num 0))) (jsOr p.physic (.num 0)))
          (.num 6)))
        (.num 0)) = _
  rw [hpot, if_neg (by simp), contrib_or _ h1, contrib_or _ h2, contrib_or _ h3,
    contrib_or _ h4, contrib_or _ h5, contrib_or _ h6, jsAdd_num, jsAdd_num,
    jsAdd_num, jsAdd_num, jsAdd_num, jsDiv_num _ _ (by norm_num), jsRound_num,
    jsOr_num_zero]

/-- The concrete input of the spec's potential example. -/
def exC2 : RawInput :=
  { pace := .num 80, shooting := .num 70, passing := .num 60,
    dribbling := .num 50, defending := .num 40, physic := .num 30 }

theorem ratFloor_floor (q : ℚ) : q.floor = ⌊q⌋ := by
  rw [Rat.floor_def', Rat.floor_def]

/-- C2 witness: the spec's example input normalizes to potential 55. -/
theorem c2_potential_mean_witness : (normalizeInput exC2).potential = .num 55 := by
  have h := c2_potential_mean exC2 rfl (Or.inr ⟨80, rfl⟩) (Or.inr ⟨70, rfl⟩)
    (Or.inr ⟨60, rfl⟩) (Or.inr ⟨50, rfl⟩) (Or.inr ⟨40, rfl⟩) (Or.inr ⟨30, rfl⟩)
  rw [h]
  norm_num [exC2, contrib, jsRoundQ, ratFloor_floor]

/-- A raw input whose `age` is present as the empty string. -/
def exC3 : RawInput := { age := .str "" }

/-- C3 counterexample: an age submitted as the empty string does not
normalize to 0 — the `!== undefined` guard keeps the empty string as-is. -/
theorem c3_counterexample :
    exC3.age = JSVal.str "" ∧ (normalizeInput exC3).age ≠ JSVal.num 0 := by decide

/-- C3 amended: an empty-string value triggers the default only for the
`||`-guarded fields `work_rate`, `body_type` and `player_traits`; the nine
`!== undefined`-guarded fields keep the empty string unchanged. -/
theorem c3_empty_string_defaults (p : RawInput)
    (ha : p.age = .str "") (hw : p.weight_kg = .str "") (hpo : p.potential = .str "")
    (hs : p.skill_moves = .str "") (hwr : p.work_rate = .str "")
    (hb : p.body_type = .str "") (hpa : p.pace = .str "") (hsh : p.shooting = .str "")
    (hps : p.passing = .str "") (hd : p.defending = .str "")
    (hph : p.physic = .str "") (hpt : p.player_traits = .str "") :
    (normalizeInput p).age = .str "" ∧
    (normalizeInput p).weight_kg = .str "" ∧
    (normalizeInput p).potential = .str "" ∧
    (normalizeInput p).skill_moves = .str "" ∧
    (normalizeInput p).work_rate = .str "Unknown_Category" ∧
    (normalizeInput p).body_type = .str "Unknown_Category" ∧
    (normalizeInput p).pace = .str "" ∧
    (normalizeInput p).shooting = .str "" ∧
    (normalizeInput p).passing = .str "" ∧
    (normalizeInput p).defending = .str "" ∧
    (normalizeInput p).physic = .str "" ∧
    (normalizeInput p).player_traits = .str "" := by
  simp [normalizeInput, ha, hw, hpo, hs, hwr, hb, hpa, hsh, hps, hd, hph, hpt,
    jsOr, jsTruthy_str_empty]

/-- A raw input with every field present as the empty string. -/
def exC3All : RawInput :=
  { age := .str "", weight_kg := .str "", potential := .str "",
    skill_moves := .str "", work_rate := .str "", body_type := .str "",
    pace := .str "", shooting := .str "", passing := .str "",
    defending := .str "", physic := .str "", player_traits := .str "" }

/-- C3 witness: the amended behaviour at the all-empty-string input. -/
theorem c3_empty_string_defaults_witness :
    (normalizeInput exC3All).age = .str "" ∧
    (normalizeInput exC3All).weight_kg = .str "" ∧
    (normalizeInput exC3All).potential = .str "" ∧
    (normalizeInput exC3All).skill_moves = .str "" ∧
    (normalizeInput exC3All).work_rate = .str "Unknown_Category" ∧
    (normalizeInput exC3All).body_type = .str "Unknown_Category" ∧
    (normalizeInput exC3All).pace = .str "" ∧
    (normalizeInput exC3All).shooting = .str "" ∧
    (normalizeInput exC3All).passing = .str "" ∧
    (normalizeInput exC3All).defending = .str "" ∧
    (normalizeInput exC3All).physic = .str "" ∧
    (normalizeInput exC3All).player_traits = .str "" :=
  c3_empty_string_defaults exC3All rfl rfl rfl rfl rfl rfl rfl rfl rfl rfl rfl rfl

theorem appendIf_eq (b : Bool) (s : String) (r : List String) :
    appendIf b s r = r ++ (if b then [s] else []) := by
  cases b <;> simp [appendIf]

theorem hasFat_empty : hasFat "" = false := by decide

theorem cond1_toMapped (f : Features) : cond1 (toMapped f) = decide (f.pace < 70) := by
  simp [cond1, toMapped, jsLt, jsToNumber]

theorem cond2_toMapped (f : Features) : cond2 (toMapped f) = decide (f.shooting < 65) := by
  simp [cond2, toMapped, jsLt, jsToNumber]

theorem cond3_toMapped (f : Features) : cond3 (toMapped f) = decide (f.passing < 65) := by
  simp [cond3, toMapped, jsLt, jsToNumber]

theorem cond4_toMapped (f : Features) : cond4 (toMapped f) = decide (f.defending < 60) := by
  simp [cond4, toMapped, jsLt, jsToNumber]

theorem cond5_toMapped (f : Features) : cond5 (toMapped f) = decide (f.physic < 65) := by
  simp [cond5, toMapped, jsLt, jsToNumber]

theorem cond6_toMapped (f : Features) : cond6 (toMapped f) = decide (f.potential < 50) := by
  simp [cond6, toMapped, jsLt, jsToNumber]

theorem cond7_toMapped (f : Features) : cond7 (toMapped f) = decide (f.skill_moves < 3) := by
  simp [cond7, toMapped, jsLt, jsToNumber]

theorem cond8_toMapped (f : Features) : cond8 (toMapped f) = decide (f.age > 34) := by
  simp [cond8, toMapped, jsGt, jsLt, jsToNumber]

theorem cond9_toMapped (f : Features) : cond9 (toMapped f) = hasFat f.body_type := by
  simp only [cond9, toMapped, jsTruthy, jsToString]
  by_cases h : f.body_type = ""
  · rw [h]; simp [hasFat_empty]
  · simp [h]

/-- The JS-level reason checks on an injected typed record compute exactly
the spec-side fixed-order list. -/
theorem rawReasons_toMapped (f : Features) :
    rawReasons (toMapped f) = specReasonChecks f := by
  simp only [rawReasons, cond1_toMapped, cond2_toMapped, cond3_toMapped,
    cond4_toMapped, cond5_toMapped, cond6_toMapped, cond7_toMapped,
    cond8_toMapped, cond9_toMapped, appendIf_eq, specReasonChecks,
    decide_eq_true_eq, List.nil_append, List.append_assoc]

/-- C1: for every NormalizedFeatures record, under prediction 0 the reasons
list is the nine threshold checks evaluated in the fixed source order (pace,
shooting, passing, defending, physic, potential, skill moves, age, body
type), each appending its catalog string when it holds, so several reasons
may appear and their relative order always follows the check order (with the
fallback string when none fires). -/
theorem c1_reasons_fixed_order (f : Features) :
    reasonsFor (.num 0) (toMapped f) =
      (if specReasonChecks f = [] then [fallbackMsg] else specReasonChecks f) := by
  have h := rawReasons_toMapped f
  simp only [reasonsFor, heuristicReasons, h, if_pos]
  by_cases he : specReasonChecks f = [] <;>
    simp [he, List.length_eq_zero]

/-- C4: when every threshold is satisfied (so none of the nine checks fire),
the reasons list under prediction 0 is exactly the single fallback string. -/
theorem c4_fallback_only (f : Features)
    (h1 : 70 ≤ f.pace) (h2 : 65 ≤ f.shooting) (h3 : 65 ≤ f.passing)
    (h4 : 60 ≤ f.defending) (h5 : 65 ≤ f.physic) (h6 : 50 ≤ f.potential)
    (h7 : 3 ≤ f.skill_moves) (h8 : f.age ≤ 34)
    (h9 : hasFat f.body_type = false) :
    reasonsFor (.num 0) (toMapped f) = [fallbackMsg] := by
  have hs : specReasonChecks f = [] := by
    simp [specReasonChecks, not_lt.mpr h1, not_lt.mpr h2, not_lt.mpr h3,
      not_lt.mpr h4, not_lt.mpr h5, not_lt.mpr h6, not_lt.mpr h7,
      not_lt.mpr h8, h9]
  have h := rawReasons_toMapped f
  simp [reasonsFor, heuristicReasons, h, hs]

/-- The spec's all-thresholds-satisfied example record. -/
def ex90 : Features :=
  { pace := 90, shooting := 90, passing := 90, defending := 90, physic := 90,
    potential := 90, skill_moves := 5, age := 25, body_type := "Lean" }

/-- C4 witness: the 90s example yields exactly the fallback message. -/
theorem c4_fallback_only_witness :
    reasonsFor (.num 0) (toMapped ex90) = [fallbackMsg] :=
  c4_fallback_only ex90 (by norm_num [ex90]) (by norm_num [ex90])
    (by norm_num [ex90]) (by norm_num [ex90]) (by norm_num [ex90])
    (by norm_num [ex90]) (by norm_num [ex90]) (by norm_num [ex90]) (by decide)

/-- A service response whose `message` is present but the empty string. -/
def exC5 : PyResp := { prediction := .num 1, message := .str "" }

/-- C5 counterexample: a present-but-falsy `message` (the empty string) is
not passed through — the `||` guard replaces it by null, so the relayed
message differs from the supplied one. -/
theorem c5_counterexample :
    exC5.message = JSVal.str "" ∧ extractMessage exC5 ≠ exC5.message ∧
      extractMessage exC5 = JSVal.null := by decide

/-- C5 amended: the composed success result carries exactly the extracted
values, where prediction falls back to the legacy `response` field (itself
replaced by null when falsy) only when `prediction` is absent, `message` is
passed through only when truthy and is null whenever falsy, and
`overall_calculated` is null exactly when absent. -/
theorem c5_extraction_amended (raw : RawInput) (pd : PyResp) :
    relay raw (.ok pd) none =
      RelayResponse.ok (extractPrediction pd) (extractMessage pd)
        (reasonsFor (extractPrediction pd) (normalizeInput raw))
        (extractOverall pd) ∧
    (pd.prediction ≠ .undef → extractPrediction pd = pd.prediction) ∧
    (pd.prediction = .undef → jsTruthy pd.response = true →
      extractPrediction pd = pd.response) ∧
    (pd.prediction = .undef → jsTruthy pd.response = false →
      extractPrediction pd = .null) ∧
    (jsTruthy pd.message = true → extractMessage pd = pd.message) ∧
    (jsTruthy pd.message = false → extractMessage pd = .null) ∧
    (pd.overall_calculated ≠ .undef → extractOverall pd = pd.overall_calculated) ∧
    (pd.overall_calculated = .undef → extractOverall pd = .null) := by
  refine ⟨rfl, ?_, ?_, ?_, ?_, ?_, ?_, ?_⟩
  · intro h; simp [extractPrediction, h]
  · intro h ht; simp [extractPrediction, h, jsOr, ht]
  · intro h ht; simp [extractPrediction, h, jsOr, ht]
  · intro ht; simp [extractMessage, jsOr, ht]
  · intro ht; simp [extractMessage, jsOr, ht]
  · intro h; simp [extractOverall, h]
  · intro h; simp [extractOverall, h]

/-- A service response with prediction absent, a falsy legacy `response`,
a falsy present `message` and no `overall_calculated`. -/
def exC5w : PyResp := { response := .num 0, message := .num 0 }

/-- C5 witness: the amended extraction rules at a concrete falsy response. -/
theorem c5_extraction_amended_witness :
    extractPrediction exC5w = JSVal.null ∧ extractMessage exC5w = JSVal.null ∧
      extractOverall exC5w = JSVal.null :=
  ⟨(c5_extraction_amended ({} : RawInput) exC5w).2.2.2.1 rfl (by decide),
   (c5_extraction_amended ({} : RawInput) exC5w).2.2.2.2.2.1 (by decide),
   (c5_extraction_amended ({} : RawInput) exC5w).2.2.2.2.2.2.2 rfl⟩

/-- C6: a fault raised inside the reasons block is swallowed by the inner
catch — the success response is still sent, its reasons degraded to the
empty list and every other field intact. -/
theorem c6_fault_swallowed (raw : RawInput) (pd : PyResp) (e : String) :
    relay raw (.ok pd) (some e) =
      RelayResponse.ok (extractPrediction pd) (extractMessage pd) []
        (extractOverall pd) := rfl

/-- C7: when the outbound call gets no response (unreachable service) the
endpoint answers with status 500 (≥ 500) and the fixed generic message,
whatever the rest of the request looked like. -/
theorem c7_unreachable_generic (raw : RawInput) (fault : Option String) :
    relay raw .noResponse fault = RelayResponse.err 500 (.str genericMsg) ∧
      500 ≤ statusOf (relay raw .noResponse fault) :=
  ⟨rfl, Nat.le.refl⟩

/-- A normalized field that is genuinely populated: neither absent nor null. -/
def definedVal (v : JSVal) : Prop := v ≠ .undef ∧ v ≠ .null

/-- The domain of C8: every raw field is a string, a number or absent —
in particular never the JS null value. -/
def rawNoNull (p : RawInput) : Prop :=
  p.age ≠ .null ∧ p.weight_kg ≠ .null ∧ p.weight ≠ .null ∧ p.potential ≠ .null ∧
  p.skill_moves ≠ .null ∧ p.dribbling ≠ .null ∧ p.work_rate ≠ .null ∧
  p.body_type ≠ .null ∧ p.pace ≠ .null ∧ p.shooting ≠ .null ∧
  p.passing ≠ .null ∧ p.defending ≠ .null ∧ p.physic ≠ .null ∧
  p.player_traits ≠ .null

theorem definedVal_presentOr (v d : JSVal) (hv : v ≠ .null) (hd : definedVal d) :
    definedVal (if v ≠ .undef then v else d) := by
  by_cases h : v = .undef
  · rw [h, if_neg (by simp)]; exact hd
  · rw [if_pos h]; exact ⟨h, hv⟩

theorem definedVal_jsOr (v d : JSVal) (hd : definedVal d) :
    definedVal (jsOr v d) := by
  unfold jsOr
  split
  · next h => cases v <;> simp_all [jsTruthy, definedVal]
  · exact hd

theorem definedVal_num (q : ℚ) : definedVal (.num q) := by simp [definedVal]

theorem definedVal_str (s : String) : definedVal (.str s) := by simp [definedVal]

/-- C8 counterexample: the `mapped` object declares twelve fields, not
thirteen. -/
theorem c8_counterexample : mappedFieldNames.length ≠ 13 := by decide

/-- C8 amended: normalization is total, and on every RawInput whose fields
are strings, numbers or absent, all twelve declared fields of the normalized
record are populated — none is absent or null. -/
theorem c8_fully_populated (p : RawInput) (h : rawNoNull p) :
    definedVal (normalizeInput p).age ∧
    definedVal (normalizeInput p).weight_kg ∧
    definedVal (normalizeInput p).potential ∧
    definedVal (normalizeInput p).skill_moves ∧
    definedVal (normalizeInput p).work_rate ∧
    definedVal (normalizeInput p).body_type ∧
    definedVal (normalizeInput p).pace ∧
    definedVal (normalizeInput p).shooting ∧
    definedVal (normalizeInput p).passing ∧
    definedVal (normalizeInput p).defending ∧
    definedVal (normalizeInput p).physic ∧
    definedVal (normalizeInput p).player_traits := by
  obtain ⟨ha, hw, hwt, hpo, hsm, hdr, hwr, hbt, hpa, hsh, hps, hdf, hph, hpt⟩ := h
  refine ⟨?_, ?_, ?_, ?_, ?_, ?_, ?_, ?_, ?_, ?_, ?_, ?_⟩
  · exact definedVal_presentOr _ _ ha (definedVal_num 0)
  · exact definedVal_presentOr _ _ hw (definedVal_jsOr _ _ (definedVal_num 0))
  · exact definedVal_presentOr _ _ hpo (definedVal_jsOr _ _ (definedVal_num 0))
  · exact definedVal_presentOr _ _ hsm
      (definedVal_presentOr _ _ hdr (definedVal_num 0))
  · exact definedVal_jsOr _ _ (definedVal_str _)
  · exact definedVal_jsOr _ _ (definedVal_str _)
  · exact definedVal_presentOr _ _ hpa (definedVal_num 0)
  · exact definedVal_presentOr _ _ hsh (definedVal_num 0)
  · exact definedVal_presentOr _ _ hps (definedVal_num 0)
  · exact definedVal_presentOr _ _ hdf (definedVal_num 0)
  · exact definedVal_presentOr _ _ hph (definedVal_num 0)
  · exact definedVal_jsOr _ _ (definedVal_str _)

/-- C8 witness: the all-absent raw input normalizes to a fully populated
record. -/
theorem c8_fully_populated_witness :
    definedVal (normalizeInput ({} : RawInput)).age ∧
    definedVal (normalizeInput ({} : RawInput)).weight_kg ∧
    definedVal (normalizeInput ({} : RawInput)).potential ∧
    definedVal (normalizeInput ({} : RawInput)).skill_moves ∧
    definedVal (normalizeInput ({} : RawInput)).work_rate ∧
    definedVal (normalizeInput ({} : RawInput)).body_type ∧
    definedVal (normalizeInput ({} : RawInput)).pace ∧
    definedVal (normalizeInput ({} : RawInput)).shooting ∧
    definedVal (normalizeInput ({} : RawInput)).passing ∧
    definedVal (normalizeInput ({} : RawInput)).defending ∧
    definedVal (normalizeInput ({} : RawInput)).physic ∧
    definedVal (normalizeInput ({} : RawInput)).player_traits :=
  c8_fully_populated ({} : RawInput) (by unfold rawNoNull; decide)

/-- C9: a present-but-falsy `message` (empty string, 0 or false) relays as
null, and a legacy `response` equal to 0 with `prediction` absent also
relays prediction as null rather than 0. -/
theorem c9_falsy_relay (pd pd2 : PyResp)
    (hm : pd.message = .str "" ∨ pd.message = .num 0 ∨ pd.message = .bool false)
    (hp : pd2.prediction = .undef) (hr : pd2.response = .num 0) :
    extractMessage pd = .null ∧ extractPrediction pd2 = .null := by
  constructor
  · rcases hm with h | h | h <;>
      simp [extractMessage, jsOr, h, jsTruthy_str_empty, jsTruthy_num_zero, jsTruthy]
  · simp [extractPrediction, hp, hr, jsOr, jsTruthy_num_zero]

/-- A response with a present empty-string message. -/
def exC9a : PyResp := { message := .str "" }

/-- A response with prediction absent and legacy response 0. -/
def exC9b : PyResp := { response := .num 0 }

/-- C9 witness: both falsy relays at concrete responses. -/
theorem c9_falsy_relay_witness :
    extractMessage exC9a = JSVal.null ∧ extractPrediction exC9b = JSVal.null :=
  c9_falsy_relay exC9a exC9b (Or.inl rfl) rfl rfl

theorem jsTruthy_jsOr_of_right (v w : JSVal) (hw : jsTruthy w = true) :
    jsTruthy (jsOr v w) = true := by
  cases hb : jsTruthy v <;> simp [jsOr, hb, hw]

theorem truthy_ne_str_empty (x : JSVal) (h : jsTruthy x = true) : x ≠ .str "" := by
  intro he
  rw [he, jsTruthy_str_empty] at h
  exact Bool.false_ne_true h

/-- C10: after normalization `work_rate` and `body_type` are always truthy
(in particular never the empty string; a falsy raw value becomes
"Unknown_Category"), so the truthiness guard of the body-type check never
short-circuits: check 9 is exactly the case-insensitive "fat" substring
test on the normalized body type. -/
theorem c10_body_type_guard (p : RawInput) :
    jsTruthy (normalizeInput p).work_rate = true ∧
    jsTruthy (normalizeInput p).body_type = true ∧
    (normalizeInput p).work_rate ≠ .str "" ∧
    (normalizeInput p).body_type ≠ .str "" ∧
    (jsTruthy p.work_rate = false →
      (normalizeInput p).work_rate = .str "Unknown_Category") ∧
    (jsTruthy p.body_type = false →
      (normalizeInput p).body_type = .str "Unknown_Category") ∧
    cond9 (normalizeInput p) = hasFat (jsToString (normalizeInput p).body_type) := by
  have hw : jsTruthy (normalizeInput p).work_rate = true :=
    jsTruthy_jsOr_of_right p.work_rate (.str "Unknown_Category") (by decide)
  have hb : jsTruthy (normalizeInput p).body_type = true :=
    jsTruthy_jsOr_of_right p.body_type (.str "Unknown_Category") (by decide)
  refine ⟨hw, hb, truthy_ne_str_empty _ hw, truthy_ne_str_empty _ hb, ?_, ?_, ?_⟩
  · intro h
    show jsOr p.work_rate (.str "Unknown_Category") = .str "Unknown_Category"
    simp [jsOr, h]
  · intro h
    show jsOr p.body_type (.str "Unknown_Category") = .str "Unknown_Category"
    simp [jsOr, h]
  · unfold cond9
    rw [hb, Bool.true_and]

/-- A raw input with falsy (but present) work rate and body type. -/
def exC10 : RawInput := { work_rate := .str "", body_type := .num 0 }

/-- C10 witness: falsy raw categorical fields become "Unknown_Category". -/
theorem c10_body_type_guard_witness :
    (normalizeInput exC10).work_rate = .str "Unknown_Category" ∧
      (normalizeInput exC10).body_type = .str "Unknown_Category" :=
  ⟨(c10_body_type_guard exC10).2.2.2.2.1 (by decide),
   (c10_body_type_guard exC10).2.2.2.2.2.1 (by decide)⟩
